import Mathlib

/-!
Shallow embedding of `src/birthday_match.py` (pl-birthday-match).

The script fetches an FPL roster (`bootstrap-static`), a Wikidata birthday
index, and the season fixtures, joins them on player name, keeps fixtures
whose (month, day) equals the player's birth (month, day), sorts the rows by
date and renders them as HTML.

Modelling conventions:
* network fetches become parameters: the roster response and the fixtures
  response are `Except Unit _` (`.error` = the `try/except` around the fetch
  caught an exception), the birthday index is passed as the finished
  name-to-date dictionary, and `datetime.now().date()` is the `today`
  parameter;
* Python dicts built by successive writes (`teams`, `dob_map`) are
  association lists read with last-write-wins lookup (`dictGet`);
* pandas `Series.map(dict)` yields NaN on a missing key, and NaN compares
  unequal to everything (including NaN): a mapped team name is
  `Option String` and `optEq` is the pandas scalar equality;
* `get_data` returns `Option (List MatchRecord)`: `none` models an uncaught
  exception escaping `get_data`, `some rows` models a returned DataFrame.
-/

/-- Calendar date as stored in a Python `datetime.date`; ordered
lexicographically by (year, month, day), exactly as Python orders dates. -/
structure Date where
  year : Nat
  month : Nat
  day : Nat
deriving DecidableEq

/-- Python `a < b` on `datetime.date`: lexicographic on (year, month, day). -/
def dateLt (a b : Date) : Bool :=
  decide (a.year < b.year ∨ (a.year = b.year ∧
    (a.month < b.month ∨ (a.month = b.month ∧ a.day < b.day))))

/-- Python `a <= b` on dates (total order, so the negation of `b < a`). -/
def dateLe (a b : Date) : Bool := !(dateLt b a)

/-- Python `str.lower()` restricted to the character-wise case map. -/
def pyLower (s : String) : String := ⟨s.data.map Char.toLower⟩

/-- Helper for `pyStrip`: drop leading whitespace characters. -/
def dropLeadingWs : List Char → List Char
  | [] => []
  | c :: cs => if c.isWhitespace then dropLeadingWs cs else c :: cs

/-- Python `str.strip()`: remove leading and trailing whitespace. -/
def pyStrip (s : String) : String :=
  ⟨(dropLeadingWs (dropLeadingWs s.data).reverse).reverse⟩

/-- Last-write-wins lookup in an association list: the semantics of reading
a Python dict that was built by successive `d[k] = v` writes. -/
def dictGet {α β : Type} [DecidableEq α] (m : List (α × β)) (k : α) : Option β :=
  match m with
  | [] => none
  | (k2, v) :: rest =>
    match dictGet rest k with
    | some r => some r
    | none => if k2 = k then some v else none

/-- pandas scalar equality between two possibly-NaN strings: NaN (here
`none`) compares unequal to everything, including another NaN. -/
def optEq (a b : Option String) : Bool :=
  match a, b with
  | some x, some y => x == y
  | _, _ => false

/-- Python f-string rendering of a possibly-NaN string: NaN prints as `nan`. -/
def optStr : Option String → String
  | some s => s
  | none => "nan"

/-- One record of the roster response's `elements` list:
`first_name`, `second_name`, `web_name` and the numeric `team` id. -/
structure RawElement where
  first_name : String
  second_name : String
  web_name : String
  team : Nat
deriving DecidableEq

/-- The parsed roster response: `teams` (id/name rows turned into the `teams`
dict) and `elements` (the player rows). -/
structure RosterData where
  teams : List (Nat × String)
  elements : List RawElement
deriving DecidableEq

/-- A roster player after the script's column construction:
`full_name = first_name + " " + second_name`,
`match_key = full_name.lower().strip()`,
`Team Name = teams map lookup` (NaN when the id is unmapped). -/
structure Player where
  full_name : String
  match_key : String
  web_name : String
  team_name : Option String
deriving DecidableEq

/-- Build one `players` row, mirroring lines 58-62 of the script. -/
def buildPlayer (teams : List (Nat × String)) (e : RawElement) : Player :=
  let full := e.first_name ++ " " ++ e.second_name
  { full_name := full
  , match_key := pyStrip (pyLower full)
  , web_name := e.web_name
  , team_name := dictGet teams e.team }

/-- The whole `players` DataFrame, one `Player` per roster element, in
roster order. -/
def buildPlayers (teams : List (Nat × String)) (elements : List RawElement) :
    List Player :=
  elements.map (buildPlayer teams)

/-- The birthday index: lowercased stripped player name to birth date
(`dob_map` in the script). -/
abbrev DobMap : Type := List (String × Date)

/-- One row of the fixtures response: home/away team ids and the kickoff
date (`none` models a null `kickoff_time`, which becomes NaT and is
dropped by `dropna`). -/
structure RawFixture where
  team_h : Nat
  team_a : Nat
  kickoff_time : Option Date
deriving DecidableEq

/-- A fixture row after parsing: the kickoff date plus the `Home` / `Away`
columns produced by mapping the team ids through the `teams` dict
(NaN, i.e. `none`, when an id is unmapped). -/
structure Fixture where
  date : Date
  home : Option String
  away : Option String
deriving DecidableEq

/-- Lines 77-81: parse kickoff dates, drop rows whose kickoff is NaT, and
map the team ids to names. -/
def buildFixtures (teams : List (Nat × String)) (raws : List RawFixture) :
    List Fixture :=
  raws.filterMap (fun f =>
    match f.kickoff_time with
    | none => none
    | some d =>
      some { date := d
           , home := dictGet teams f.team_h
           , away := dictGet teams f.team_a })

/-- One output row appended to `matches_found` (lines 110-118). -/
structure MatchRecord where
  date : Date
  status : String
  cssClass : String
  player : String
  team : Option String
  turningAge : Int
  opponent : String
deriving DecidableEq

/-- Lines 91-94: look up the player's `match_key` in `dob_map`; only if that
key is absent, fall back to the lowercased stripped `web_name`. -/
def resolveDob (dobm : DobMap) (p : Player) : Option Date :=
  match dictGet dobm p.match_key with
  | some d => some d
  | none => dictGet dobm (pyStrip (pyLower p.web_name))

/-- Lines 104-118: the record built for a player/fixture pair whose
(month, day) matched. -/
def mkRecord (today : Date) (p : Player) (dob : Date) (m : Fixture) :
    MatchRecord :=
  let venue := if optEq p.team_name m.home then "vs" else "@"
  let opp := if optEq p.team_name m.home then optStr m.away else optStr m.home
  { date := m.date
  , status := if dateLt m.date today then "✅ PLAYED" else "🔜 UPCOMING"
  , cssClass := if dateLt m.date today then "played" else "upcoming"
  , player := p.full_name
  , team := p.team_name
  , turningAge := (m.date.year : Int) - (dob.year : Int)
  , opponent := venue ++ " " ++ opp }

/-- Lines 88-118, body of the player loop: resolve the birth date (skip the
player when it stays unresolved), restrict the fixtures to those whose
`Home` or `Away` equals the player's team name, and emit a record for every
fixture whose (month, day) equals the birth (month, day). -/
def playerRecords (today : Date) (fixtures : List Fixture) (dobm : DobMap)
    (p : Player) : List MatchRecord :=
  match resolveDob dobm p with
  | none => []
  | some dob =>
    let team_fix := fixtures.filter
      (fun f => optEq f.home p.team_name || optEq f.away p.team_name)
    team_fix.flatMap (fun m =>
      if m.date.month = dob.month ∧ m.date.day = dob.day then
        [mkRecord today p dob m]
      else [])

/-- The `matches_found` list: the player loop runs over the roster in order
and appends each player's records. -/
def matchesFound (today : Date) (fixtures : List Fixture) (dobm : DobMap)
    (players : List Player) : List MatchRecord :=
  players.flatMap (playerRecords today fixtures dobm)

/-- Insert a record into a list sorted ascending by `date`, before the
first element that is not strictly earlier. -/
def insertByDate (x : MatchRecord) : List MatchRecord → List MatchRecord
  | [] => [x]
  | y :: ys =>
    if dateLt y.date x.date then y :: insertByDate x ys else x :: y :: ys

/-- Line 120's `sort_values('Date')`.  The source uses pandas' default
`kind='quicksort'`, which promises ascending order on the `Date` column but
NOT a particular order among rows with equal dates; this executable
insertion sort is one sort satisfying that contract.  Facts proved about
the pipeline's output therefore rely only on membership
(`mem_sortByDate`) and on ascending order (`sortByDate_pairwise`), which
hold however the real sort permutes equal dates — never on how this
stand-in happens to break ties. -/
def sortByDate : List MatchRecord → List MatchRecord
  | [] => []
  | x :: xs => insertByDate x (sortByDate xs)

/-- Lines 48-120, `get_data`, with the fetches as parameters.
Return value `none` models an uncaught exception: the only uncaught raise is
line 120's `pd.DataFrame(matches_found).sort_values('Date')` when
`matches_found` is empty — an empty DataFrame has no `Date` column, so
`sort_values` raises `KeyError` outside every `try`.  The caught failure
paths return `some []` (an empty DataFrame):
* roster fetch/parse error, including an empty `elements` list (line 60 then
  raises `KeyError` inside the first `try`);
* an empty `dob_map` (line 69);
* fixtures fetch/parse error, including an empty fixtures list (line 78 then
  raises `KeyError` inside the second `try`). -/
def get_data (roster : Except Unit RosterData) (dob_map : DobMap)
    (fixResp : Except Unit (List RawFixture)) (today : Date) :
    Option (List MatchRecord) :=
  match roster with
  | .error _ => some []
  | .ok rd =>
    if rd.elements.isEmpty then some []
    else if dob_map.isEmpty then some []
    else
      match fixResp with
      | .error _ => some []
      | .ok raws =>
        if raws.isEmpty then some []
        else
          let found := matchesFound today (buildFixtures rd.teams raws)
            dob_map (buildPlayers rd.teams rd.elements)
          if found.isEmpty then none else some (sortByDate found)

/-- `strftime('%b')`: English month abbreviation (C locale). -/
def monthAbbrev : Nat → String
  | 1 => "Jan" | 2 => "Feb" | 3 => "Mar" | 4 => "Apr"
  | 5 => "May" | 6 => "Jun" | 7 => "Jul" | 8 => "Aug"
  | 9 => "Sep" | 10 => "Oct" | 11 => "Nov" | 12 => "Dec"
  | _ => ""

/-- Lines 127-159: the fixed document head, with the summary line showing
the row count. -/
def htmlHeader (n : Nat) : String :=
  "\n<!DOCTYPE html>\n<html>\n<head>\n" ++
  "    <title>PL Birthday Matches (Full Season)</title>\n" ++
  "    <meta name=\"viewport\" content=\"width=device-width, initial-scale=1\">\n" ++
  "    <style>\n" ++
  "        body \x7b font-family: -apple-system, sans-serif; max-width: 800px; margin: 2rem auto; padding: 1rem; background: #f0f2f5; \x7d\n" ++
  "        h1 \x7b text-align: center; color: #38003c; \x7d\n" ++
  "        .summary \x7b text-align: center; margin-bottom: 2rem; color: #555; \x7d\n" ++
  "        .card \x7b background: white; padding: 1.2rem; margin-bottom: 1rem; border-radius: 8px; display: flex; align-items: center; box-shadow: 0 1px 3px rgba(0,0,0,0.1); \x7d\n\n" ++
  "        /* Different borders for Past vs Future */\n" ++
  "        .played \x7b border-left: 5px solid #aaa; opacity: 0.8; \x7d\n" ++
  "        .upcoming \x7b border-left: 5px solid #00ff85; \x7d\n\n" ++
  "        .date-col \x7b width: 80px; text-align: center; margin-right: 1rem; \x7d\n" ++
  "        .day \x7b font-size: 1.4rem; font-weight: 800; color: #333; \x7d\n" ++
  "        .month \x7b font-size: 0.8rem; text-transform: uppercase; font-weight: 700; color: #777; \x7d\n\n" ++
  "        .info-col \x7b flex-grow: 1; \x7d\n" ++
  "        .player \x7b font-size: 1.2rem; font-weight: 700; \x7d\n" ++
  "        .details \x7b color: #555; \x7d\n\n" ++
  "        .status-tag \x7b font-size: 0.7rem; padding: 2px 6px; border-radius: 4px; vertical-align: middle; margin-left: 10px; \x7d\n" ++
  "        .played .status-tag \x7b background: #eee; color: #555; \x7d\n" ++
  "        .upcoming .status-tag \x7b background: #00ff85; color: #38003c; font-weight: bold; \x7d\n" ++
  "    </style>\n</head>\n<body>\n" ++
  "    <h1>📅 Full Season Birthday Matches</h1>\n" ++
  "    <div class=\"summary\">Found " ++ toString n ++
  " matches for the 2025-26 Season</div>\n"

/-- Lines 164-175: one visual card per record. -/
def cardHtml (r : MatchRecord) : String :=
  "\n        <div class=\"card " ++ r.cssClass ++ "\">\n" ++
  "            <div class=\"date-col\">\n" ++
  "                <div class=\"day\">" ++ toString r.date.day ++ "</div>\n" ++
  "                <div class=\"month\">" ++ monthAbbrev r.date.month ++ "</div>\n" ++
  "            </div>\n" ++
  "            <div class=\"info-col\">\n" ++
  "                <div class=\"player\">" ++ r.player ++
  " <span class=\"status-tag\">" ++ r.status ++ "</span></div>\n" ++
  "                <div class=\"details\">Turn " ++ toString r.turningAge ++
  " • <b>" ++ optStr r.team ++ "</b> " ++ r.opponent ++ "</div>\n" ++
  "            </div>\n        </div>\n        "

/-- Line 178: the placeholder rendered when the DataFrame is empty. -/
def noMatchesHtml : String :=
  "<p style=\x27text-align:center\x27>No matches found.</p>"

/-- Lines 161-180: either one card per row, or the placeholder, then the
closing tags. -/
def html_content (df : List MatchRecord) : String :=
  htmlHeader df.length ++
  (if !df.isEmpty then String.join (df.map cardHtml) else noMatchesHtml) ++
  "</body></html>"

/-- The whole script after the fetches: `df = get_data(...)` then the HTML
assembly.  `none` means the script died on an uncaught exception before any
HTML was produced. -/
def runProgram (roster : Except Unit RosterData) (dob_map : DobMap)
    (fixResp : Except Unit (List RawFixture)) (today : Date) :
    Option String :=
  (get_data roster dob_map fixResp today).map html_content

/-! ### Order facts about `dateLt` / `dateLe` -/

theorem dateLt_irrefl (a : Date) : dateLt a a = false := by
  simp [dateLt]

theorem dateLt_asymm {a b : Date} (h : dateLt a b = true) : dateLt b a = false := by
  simp only [dateLt, decide_eq_true_eq, decide_eq_false_iff_not] at *
  omega

theorem dateLt_false_trans {x y z : Date} (h1 : dateLt y x = false)
    (h2 : dateLt z y = false) : dateLt z x = false := by
  simp only [dateLt, decide_eq_false_iff_not] at *
  omega

/-! ### The stable sort on the Date column -/

theorem mem_insertByDate {z x : MatchRecord} :
    ∀ {l : List MatchRecord}, z ∈ insertByDate x l ↔ z = x ∨ z ∈ l := by
  intro l
  induction l with
  | nil => simp [insertByDate]
  | cons y ys ih =>
    simp only [insertByDate]
    split
    · simp only [List.mem_cons, ih]
      tauto
    · simp [List.mem_cons]

theorem pairwise_insertByDate {x : MatchRecord} :
    ∀ {l : List MatchRecord},
      List.Pairwise (fun a b => dateLe a.date b.date = true) l →
      List.Pairwise (fun a b => dateLe a.date b.date = true) (insertByDate x l) := by
  intro l
  induction l with
  | nil =>
    intro _
    simp [insertByDate]
  | cons y ys ih =>
    intro h
    rcases List.pairwise_cons.mp h with ⟨hy, hys⟩
    simp only [insertByDate]
    split
    · case isTrue hcase =>
      apply List.pairwise_cons.mpr
      refine ⟨?_, ih hys⟩
      intro z hz
      rcases mem_insertByDate.mp hz with rfl | hz2
      · simp [dateLe, dateLt_asymm hcase]
      · exact hy z hz2
    · case isFalse hcase =>
      have hyx : dateLt y.date x.date = false := by
        revert hcase
        cases dateLt y.date x.date <;> simp
      apply List.pairwise_cons.mpr
      refine ⟨?_, h⟩
      intro z hz
      rcases List.mem_cons.mp hz with rfl | hz2
      · simp [dateLe, hyx]
      · have hzy : dateLt z.date y.date = false := by
          have := hy z hz2
          simpa [dateLe] using this
        simp [dateLe, dateLt_false_trans hyx hzy]

theorem sortByDate_pairwise :
    ∀ (l : List MatchRecord),
      List.Pairwise (fun a b => dateLe a.date b.date = true) (sortByDate l) := by
  intro l
  induction l with
  | nil => simp [sortByDate]
  | cons x xs ih => exact pairwise_insertByDate ih

theorem mem_sortByDate {r : MatchRecord} :
    ∀ {l : List MatchRecord}, r ∈ sortByDate l ↔ r ∈ l := by
  intro l
  induction l with
  | nil => simp [sortByDate]
  | cons x xs ih => simp [sortByDate, mem_insertByDate, ih]

/-! ### Inversion lemmas for the matcher -/

theorem get_data_ok_ok (rd : RosterData) (dobm : DobMap)
    (raws : List RawFixture) (today : Date) :
    get_data (.ok rd) dobm (.ok raws) today =
      if rd.elements.isEmpty then some []
      else if dobm.isEmpty then some []
      else if raws.isEmpty then some []
      else if (matchesFound today (buildFixtures rd.teams raws) dobm
          (buildPlayers rd.teams rd.elements)).isEmpty then none
      else some (sortByDate (matchesFound today (buildFixtures rd.teams raws)
          dobm (buildPlayers rd.teams rd.elements))) := rfl

theorem mem_if_singleton {c : Prop} [Decidable c] {r a : MatchRecord} :
    (r ∈ if c then [a] else []) ↔ c ∧ r = a := by
  split <;> simp_all

theorem mem_playerRecords {today : Date} {fixtures : List Fixture}
    {dobm : DobMap} {p : Player} {r : MatchRecord} :
    r ∈ playerRecords today fixtures dobm p ↔
      ∃ dob, resolveDob dobm p = some dob ∧
        ∃ m ∈ fixtures,
          (optEq m.home p.team_name || optEq m.away p.team_name) = true ∧
          m.date.month = dob.month ∧ m.date.day = dob.day ∧
          r = mkRecord today p dob m := by
  unfold playerRecords
  cases h : resolveDob dobm p with
  | none => simp
  | some dob =>
    simp only [List.mem_flatMap, List.mem_filter, mem_if_singleton,
      Option.some.injEq]
    constructor
    · rintro ⟨m, ⟨hm, hg⟩, ⟨h1, h2⟩, h3⟩
      exact ⟨dob, rfl, m, hm, hg, h1, h2, h3⟩
    · rintro ⟨dob2, hdob2, m, hm, hg, h1, h2, h3⟩
      cases hdob2
      exact ⟨m, ⟨hm, hg⟩, ⟨h1, h2⟩, h3⟩

theorem mem_matchesFound {today : Date} {fixtures : List Fixture}
    {dobm : DobMap} {players : List Player} {r : MatchRecord} :
    r ∈ matchesFound today fixtures dobm players ↔
      ∃ p ∈ players, r ∈ playerRecords today fixtures dobm p :=
  List.mem_flatMap

theorem get_data_some_mem {rd : RosterData} {dobm : DobMap}
    {raws : List RawFixture} {today : Date} {l : List MatchRecord}
    {r : MatchRecord}
    (hl : get_data (.ok rd) dobm (.ok raws) today = some l) (hr : r ∈ l) :
    r ∈ matchesFound today (buildFixtures rd.teams raws) dobm
        (buildPlayers rd.teams rd.elements) := by
  rw [get_data_ok_ok] at hl
  split at hl
  · cases hl; cases hr
  · split at hl
    · cases hl; cases hr
    · split at hl
      · cases hl; cases hr
      · split at hl
        · cases hl
        · cases hl
          exact mem_sortByDate.mp hr

/-! ### Empty-input behaviour of the matcher -/

theorem playerRecords_dob_nil (today : Date) (fixtures : List Fixture)
    (p : Player) : playerRecords today fixtures [] p = [] := rfl

theorem matchesFound_dob_nil (today : Date) (fixtures : List Fixture) :
    ∀ (players : List Player), matchesFound today fixtures [] players = [] := by
  intro players
  induction players with
  | nil => rfl
  | cons p ps ih =>
    simp [matchesFound, List.flatMap_cons, playerRecords_dob_nil]

theorem playerRecords_fixtures_nil (today : Date) (dobm : DobMap)
    (p : Player) : playerRecords today [] dobm p = [] := by
  unfold playerRecords
  cases resolveDob dobm p <;> rfl

theorem matchesFound_fixtures_nil (today : Date) (dobm : DobMap) :
    ∀ (players : List Player), matchesFound today [] dobm players = [] := by
  intro players
  induction players with
  | nil => rfl
  | cons p ps ih =>
    simp [matchesFound, List.flatMap_cons, playerRecords_fixtures_nil]

/-! ### Concrete inputs used to exercise the pipeline (spec scenario 1) -/

/-- Two mapped teams, ids 1 and 2. -/
def teamsEx : List (Nat × String) := [(1, "Alpha FC"), (2, "Beta FC")]

/-- One roster element for team 1. -/
def elemEx : RawElement :=
  { first_name := "John", second_name := "Smith"
  , web_name := "J. Smith", team := 1 }

/-- A roster response with the two teams and the one player. -/
def rosterEx : RosterData := { teams := teamsEx, elements := [elemEx] }

/-- A birthday index holding the player's full name. -/
def dobEx : DobMap := [("john smith", ⟨1998, 5, 10⟩)]

/-- One fixture on the player's birthday (2026-05-10), team 1 at home. -/
def fixEx : List RawFixture :=
  [{ team_h := 1, team_a := 2, kickoff_time := some ⟨2026, 5, 10⟩ }]

/-- The injected current date, 2025-01-01. -/
def todayEx : Date := ⟨2025, 1, 1⟩

/-- The single record the pipeline produces on the inputs above. -/
def recEx : MatchRecord :=
  { date := ⟨2026, 5, 10⟩, status := "🔜 UPCOMING", cssClass := "upcoming"
  , player := "John Smith", team := some "Alpha FC", turningAge := 28
  , opponent := "vs Beta FC" }

/-- Same roster and index, but the only fixture (2026-04-01) misses the
birthday, so the matcher finds nothing. -/
def fixNoMatch : List RawFixture :=
  [{ team_h := 1, team_a := 2, kickoff_time := some ⟨2026, 4, 1⟩ }]

/-! ### The claims -/

/-- C1: on successfully fetched roster, fixtures and birthday index whose
join yields zero `MatchRecord`s, the script does NOT reach the render step:
`matches_found` is empty, so line 120's
`pd.DataFrame(matches_found).sort_values('Date')` raises an uncaught
`KeyError` (an empty DataFrame has no `Date` column) and the program dies
before any HTML is produced.  Concretely: roster = teams 1/2 with player
John Smith (team 1), index has his birthday 1998-05-10, the one fixture is
on 2026-04-01 — the matcher output is empty and the run produces no
document (`runProgram = none`), contradicting the claim. -/
theorem c1_empty_matches_uncaught_error :
    matchesFound todayEx (buildFixtures teamsEx fixNoMatch) dobEx
        (buildPlayers teamsEx [elemEx]) = [] ∧
    runProgram (.ok rosterEx) dobEx (.ok fixNoMatch) todayEx = none := by
  constructor <;> decide

/-- C4: a roster fetch error, an empty birthday index (the result of an
index fetch failure), or a fixtures fetch error each makes `get_data`
return the empty row list, and rendering the empty list yields the document
with the "no matches" placeholder in place of any cards. -/
theorem c4_fetch_failure_empty_report (rd : RosterData) (dobm : DobMap)
    (fixR : Except Unit (List RawFixture)) (today : Date) :
    get_data (.error ()) dobm fixR today = some [] ∧
    get_data (.ok rd) [] fixR today = some [] ∧
    get_data (.ok rd) dobm (.error ()) today = some [] ∧
    html_content [] = htmlHeader 0 ++ noMatchesHtml ++ "</body></html>" := by
  refine ⟨rfl, ?_, ?_, rfl⟩
  · by_cases h : rd.elements.isEmpty <;> simp [get_data, h]
  · by_cases h1 : rd.elements.isEmpty <;> by_cases h2 : dobm.isEmpty <;>
      simp [get_data, h1, h2]

/-- C3: every row `get_data` returns was built for a roster player whose
resolved birth date agrees with the fixture date on both month and day. -/
theorem c3_month_day_invariant (rd : RosterData) (dobm : DobMap)
    (raws : List RawFixture) (today : Date) (l : List MatchRecord)
    (r : MatchRecord)
    (hl : get_data (.ok rd) dobm (.ok raws) today = some l) (hr : r ∈ l) :
    ∃ p ∈ buildPlayers rd.teams rd.elements, ∃ dob,
      resolveDob dobm p = some dob ∧ r.player = p.full_name ∧
      r.date.month = dob.month ∧ r.date.day = dob.day := by
  have hm := get_data_some_mem hl hr
  rcases mem_matchesFound.mp hm with ⟨p, hp, hpr⟩
  rcases mem_playerRecords.mp hpr with ⟨dob, hdob, m, hmf, hguard, hmon, hday, rfl⟩
  exact ⟨p, hp, dob, hdob, rfl, hmon, hday⟩

/-- C3 witness: the scenario-1 run's single row satisfies the month/day
invariant against the resolved birth date. -/
theorem c3_witness :
    ∃ p ∈ buildPlayers rosterEx.teams rosterEx.elements, ∃ dob,
      resolveDob dobEx p = some dob ∧ recEx.player = p.full_name ∧
      recEx.date.month = dob.month ∧ recEx.date.day = dob.day :=
  c3_month_day_invariant rosterEx dobEx fixEx todayEx [recEx] recEx
    (by decide) (by decide)

/-- C5: a returned row's status is the played marker exactly when the
fixture date is strictly before `today`, the upcoming marker exactly when
it is not, and a fixture dated exactly `today` is marked upcoming. -/
theorem c5_status_boundary (rd : RosterData) (dobm : DobMap)
    (raws : List RawFixture) (today : Date) (l : List MatchRecord)
    (r : MatchRecord)
    (hl : get_data (.ok rd) dobm (.ok raws) today = some l) (hr : r ∈ l) :
    (r.status = "✅ PLAYED" ↔ dateLt r.date today = true) ∧
    (r.status = "🔜 UPCOMING" ↔ dateLt r.date today = false) ∧
    (r.date = today → r.status = "🔜 UPCOMING") := by
  have hm := get_data_some_mem hl hr
  rcases mem_matchesFound.mp hm with ⟨p, hp, hpr⟩
  rcases mem_playerRecords.mp hpr with ⟨dob, hdob, m, hmf, hguard, hmon, hday, rfl⟩
  have hdate : (mkRecord today p dob m).date = m.date := rfl
  have hst : (mkRecord today p dob m).status =
      if dateLt m.date today then "✅ PLAYED" else "🔜 UPCOMING" := rfl
  rw [hst, hdate]
  cases hlt : dateLt m.date today with
  | false =>
    refine ⟨by simp, by simp, fun _ => by simp⟩
  | true =>
    refine ⟨by simp, by simp, ?_⟩
    intro heq
    rw [heq] at hlt
    rw [dateLt_irrefl] at hlt
    cases hlt

/-- C5 witness: the scenario-1 row (fixture 2026-05-10, today 2025-01-01)
satisfies the status boundary facts. -/
theorem c5_witness :
    (recEx.status = "✅ PLAYED" ↔ dateLt recEx.date todayEx = true) ∧
    (recEx.status = "🔜 UPCOMING" ↔ dateLt recEx.date todayEx = false) ∧
    (recEx.date = todayEx → recEx.status = "🔜 UPCOMING") :=
  c5_status_boundary rosterEx dobEx fixEx todayEx [recEx] recEx
    (by decide) (by decide)

/-- C6: birth-date resolution tries the lowercased stripped full name
first; only when that key is absent does it try the lowercased stripped
`web_name`; and a player for whom neither key resolves is skipped — the
player loop emits no record for them and raises nothing. -/
theorem c6_lookup_fallback (dobm : DobMap) (teams : List (Nat × String))
    (e : RawElement) :
    (∀ d, dictGet dobm (pyStrip (pyLower (buildPlayer teams e).full_name)) =
        some d → resolveDob dobm (buildPlayer teams e) = some d) ∧
    (dictGet dobm (pyStrip (pyLower (buildPlayer teams e).full_name)) = none →
      resolveDob dobm (buildPlayer teams e) =
        dictGet dobm (pyStrip (pyLower e.web_name))) ∧
    (∀ today fixtures, resolveDob dobm (buildPlayer teams e) = none →
      playerRecords today fixtures dobm (buildPlayer teams e) = []) := by
  refine ⟨?_, ?_, ?_⟩
  · intro d h
    have h2 : dictGet dobm (buildPlayer teams e).match_key = some d := h
    simp [resolveDob, h2]
  · intro h
    have h2 : dictGet dobm (buildPlayer teams e).match_key = none := h
    simp only [resolveDob, h2]
    rfl
  · intro today fixtures h
    simp [playerRecords, h]

/-- A birthday index keyed only by the short display name, exercising the
fallback (spec scenario 3). -/
def dobWebEx : DobMap := [("j. smith", ⟨1998, 5, 10⟩)]

/-- C6 witness: the full-name key wins when present; with only the
`web_name` key the fallback is used; with an empty index the player is
skipped without a record. -/
theorem c6_witness :
    resolveDob dobEx (buildPlayer teamsEx elemEx) = some ⟨1998, 5, 10⟩ ∧
    resolveDob dobWebEx (buildPlayer teamsEx elemEx) =
      dictGet dobWebEx (pyStrip (pyLower elemEx.web_name)) ∧
    playerRecords todayEx (buildFixtures teamsEx fixEx) []
      (buildPlayer teamsEx elemEx) = [] :=
  ⟨(c6_lookup_fallback dobEx teamsEx elemEx).1 ⟨1998, 5, 10⟩ (by decide),
   (c6_lookup_fallback dobWebEx teamsEx elemEx).2.1 (by decide),
   (c6_lookup_fallback [] teamsEx elemEx).2.2 todayEx
     (buildFixtures teamsEx fixEx) (by decide)⟩

/-- C7: in every returned row, when the player's team equals the fixture's
home side the opponent descriptor is "vs " followed by the away side's
name, and when it does not (so, by the emission guard, the player's team
is the away side) the descriptor is "@ " followed by the home side's
name. -/
theorem c7_opponent_descriptor (rd : RosterData) (dobm : DobMap)
    (raws : List RawFixture) (today : Date) (l : List MatchRecord)
    (r : MatchRecord)
    (hl : get_data (.ok rd) dobm (.ok raws) today = some l) (hr : r ∈ l) :
    ∃ p ∈ buildPlayers rd.teams rd.elements,
      ∃ m ∈ buildFixtures rd.teams raws,
        (optEq m.home p.team_name || optEq m.away p.team_name) = true ∧
        (∀ aw, optEq p.team_name m.home = true → m.away = some aw →
          r.opponent = "vs " ++ aw) ∧
        (∀ hm, optEq p.team_name m.home = false →
          optEq m.away p.team_name = true → m.home = some hm →
          r.opponent = "@ " ++ hm) := by
  have hm := get_data_some_mem hl hr
  rcases mem_matchesFound.mp hm with ⟨p, hp, hpr⟩
  rcases mem_playerRecords.mp hpr with ⟨dob, hdob, m, hmf, hguard, hmon, hday, rfl⟩
  have hop : (mkRecord today p dob m).opponent =
      (if optEq p.team_name m.home then "vs" else "@") ++ " " ++
        (if optEq p.team_name m.home then optStr m.away else optStr m.home) :=
    rfl
  refine ⟨p, hp, m, hmf, hguard, ?_, ?_⟩
  · intro aw h1 h2
    rw [hop, h1, h2]
    simp [optStr]
  · intro hm2 h1 _ h3
    rw [hop, h1, h3]
    simp [optStr]

/-- C7 witness: the scenario-1 row, whose player's team is the home side,
satisfies the opponent-descriptor facts. -/
theorem c7_witness :
    ∃ p ∈ buildPlayers rosterEx.teams rosterEx.elements,
      ∃ m ∈ buildFixtures rosterEx.teams fixEx,
        (optEq m.home p.team_name || optEq m.away p.team_name) = true ∧
        (∀ aw, optEq p.team_name m.home = true → m.away = some aw →
          recEx.opponent = "vs " ++ aw) ∧
        (∀ hm, optEq p.team_name m.home = false →
          optEq m.away p.team_name = true → m.home = some hm →
          recEx.opponent = "@ " ++ hm) :=
  c7_opponent_descriptor rosterEx dobEx fixEx todayEx [recEx] recEx
    (by decide) (by decide)

/-- C8: every returned row's turning age is the fixture year minus the
resolved birth year, as plain integer subtraction with no further
adjustment. -/
theorem c8_turning_age (rd : RosterData) (dobm : DobMap)
    (raws : List RawFixture) (today : Date) (l : List MatchRecord)
    (r : MatchRecord)
    (hl : get_data (.ok rd) dobm (.ok raws) today = some l) (hr : r ∈ l) :
    ∃ p ∈ buildPlayers rd.teams rd.elements, ∃ dob,
      resolveDob dobm p = some dob ∧ r.player = p.full_name ∧
      r.turningAge = (r.date.year : Int) - (dob.year : Int) := by
  have hm := get_data_some_mem hl hr
  rcases mem_matchesFound.mp hm with ⟨p, hp, hpr⟩
  rcases mem_playerRecords.mp hpr with ⟨dob, hdob, m, hmf, hguard, hmon, hday, rfl⟩
  exact ⟨p, hp, dob, hdob, rfl, rfl⟩

/-- C8 witness: the scenario-1 row turns 28 = 2026 − 1998. -/
theorem c8_witness :
    ∃ p ∈ buildPlayers rosterEx.teams rosterEx.elements, ∃ dob,
      resolveDob dobEx p = some dob ∧ recEx.player = p.full_name ∧
      recEx.turningAge = (recEx.date.year : Int) - (dob.year : Int) :=
  c8_turning_age rosterEx dobEx fixEx todayEx [recEx] recEx
    (by decide) (by decide)

/-- C9: in every returned row the status marker and the CSS class agree:
the played marker goes exactly with class "played" and the upcoming marker
exactly with class "upcoming", both derived from the same comparison of the
fixture date against today. -/
theorem c9_status_css_consistent (rd : RosterData) (dobm : DobMap)
    (raws : List RawFixture) (today : Date) (l : List MatchRecord)
    (r : MatchRecord)
    (hl : get_data (.ok rd) dobm (.ok raws) today = some l) (hr : r ∈ l) :
    (r.status = "✅ PLAYED" ↔ r.cssClass = "played") ∧
    (r.status = "🔜 UPCOMING" ↔ r.cssClass = "upcoming") := by
  have hm := get_data_some_mem hl hr
  rcases mem_matchesFound.mp hm with ⟨p, hp, hpr⟩
  rcases mem_playerRecords.mp hpr with ⟨dob, hdob, m, hmf, hguard, hmon, hday, rfl⟩
  have hst : (mkRecord today p dob m).status =
      if dateLt m.date today then "✅ PLAYED" else "🔜 UPCOMING" := rfl
  have hcs : (mkRecord today p dob m).cssClass =
      if dateLt m.date today then "played" else "upcoming" := rfl
  rw [hst, hcs]
  cases dateLt m.date today <;> simp

/-- C9 witness: the scenario-1 row is upcoming with class "upcoming". -/
theorem c9_witness :
    (recEx.status = "✅ PLAYED" ↔ recEx.cssClass = "played") ∧
    (recEx.status = "🔜 UPCOMING" ↔ recEx.cssClass = "upcoming") :=
  c9_status_css_consistent rosterEx dobEx fixEx todayEx [recEx] recEx
    (by decide) (by decide)

/-- C10: a roster player whose numeric team id is absent from the team
dictionary gets a NaN team name, that NaN equals no fixture's home or away
side (NaN compares unequal to everything in pandas), and so the player loop
emits no record for that player and raises nothing. -/
theorem c10_unmapped_team (teams : List (Nat × String)) (e : RawElement)
    (h : dictGet teams e.team = none) :
    (buildPlayer teams e).team_name = none ∧
    (∀ f : Fixture, (optEq f.home (buildPlayer teams e).team_name ||
      optEq f.away (buildPlayer teams e).team_name) = false) ∧
    (∀ today fixtures dobm,
      playerRecords today fixtures dobm (buildPlayer teams e) = []) := by
  have ht : (buildPlayer teams e).team_name = none := h
  have hfalse : ∀ f : Fixture, (optEq f.home (buildPlayer teams e).team_name ||
      optEq f.away (buildPlayer teams e).team_name) = false := by
    intro f
    rw [ht]
    rcases f with ⟨d, fh, fa⟩
    cases fh <;> cases fa <;> rfl
  refine ⟨ht, hfalse, ?_⟩
  intro today fixtures dobm
  cases hres : resolveDob dobm (buildPlayer teams e) with
  | none => simp [playerRecords, hres]
  | some dob =>
    simp only [playerRecords, hres]
    have hnil : fixtures.filter
        (fun f => optEq f.home (buildPlayer teams e).team_name ||
          optEq f.away (buildPlayer teams e).team_name) = [] := by
      rw [List.filter_eq_nil_iff]
      intro f _
      simp [hfalse f]
    rw [hnil]
    rfl

/-- An element whose team id 7 is not in the two-team dictionary. -/
def elemUnmapped : RawElement :=
  { first_name := "Jo", second_name := "Kim", web_name := "Kim", team := 7 }

/-- A concrete parsed fixture between the two mapped teams. -/
def fixtureRowEx : Fixture :=
  { date := ⟨2026, 5, 10⟩, home := some "Alpha FC", away := some "Beta FC" }

/-- C10 witness: the team-7 player gets a NaN team name, matches neither
side of the concrete fixture, and yields no records on the scenario-1
fixtures. -/
theorem c10_witness :
    (buildPlayer teamsEx elemUnmapped).team_name = none ∧
    (optEq fixtureRowEx.home (buildPlayer teamsEx elemUnmapped).team_name ||
      optEq fixtureRowEx.away (buildPlayer teamsEx elemUnmapped).team_name) =
        false ∧
    playerRecords todayEx (buildFixtures teamsEx fixEx) dobEx
      (buildPlayer teamsEx elemUnmapped) = [] :=
  ⟨(c10_unmapped_team teamsEx elemUnmapped (by decide)).1,
   (c10_unmapped_team teamsEx elemUnmapped (by decide)).2.1 fixtureRowEx,
   (c10_unmapped_team teamsEx elemUnmapped (by decide)).2.2 todayEx
     (buildFixtures teamsEx fixEx) dobEx⟩
